import Mathlib

/-!
Verification of the pipeline orchestration core of the repository
(content_pipeline.py, eval_optimize_agent.py, task_breakdown.py,
orchestrator_agent.py), shallowly embedded in Lean 4.

Conventions of the embedding:
* Python ints are modelled as Int, strings as String, lists as List.
* A Python dict with string keys is modelled as an association list
  List (String x Bool) in insertion order (CPython dicts preserve it).
* Python truthiness of an optional string (None and the empty string are
  falsy) is modelled by pyTruthy.
* LLM calls are modelled as oracle parameters: the nondeterministic reply
  of each call is an explicit argument of the embedded function.
* The float comparison summary_length / original_length < 0.4 is modelled
  as the exact rational comparison 5 * summary_length < 2 * original_length
  (equivalent for a positive denominator); no claim depends on float
  rounding.
-/

namespace ContentPipeline

/-- Python truthiness of a value of type str or None. -/
def pyTruthy : Option String → Bool
  | none => false
  | some s => s ≠ ""

/-- GateResult model from content_pipeline.py: passed, reason, checks. -/
structure GateResult where
  passed : Bool
  reason : String
  checks : List (String × Bool)
deriving Repr, DecidableEq

/-- ExtractResult model from content_pipeline.py. -/
structure ExtractResult where
  extracted_content : String
  original_length : Int
  extracted_length : Int
  title : String
deriving Repr, DecidableEq

/-- SummarizeResult model from content_pipeline.py. -/
structure SummarizeResult where
  summary : String
  key_points : List String
  original_length : Int
  summary_length : Int
deriving Repr, DecidableEq

/-- Search for the regex pattern <[a-zA-Z][^>]*> in a list of characters:
a match exists exactly when some position holds the character <, followed
by an ASCII letter, followed by a later > (the class [^>]* absorbs all
characters up to the first subsequent >). -/
def tagBodyAfterLt : List Char → Bool
  | c :: rest => c.isAlpha && rest.contains '>'
  | [] => false

/-- Scan every position for a match starting there. -/
def hasHtmlTagAux : List Char → Bool
  | [] => false
  | c0 :: rest => (c0 == '<' && tagBodyAfterLt rest) || hasHtmlTagAux rest

/-- Model of re.search of the pattern <[a-zA-Z][^>]*> over a string. -/
def hasHtmlTag (s : String) : Bool := hasHtmlTagAux s.data

/-- Model of the Python str.strip method: remove whitespace from both ends.
Defined structurally over the character list so that it evaluates in the
kernel. -/
def pyStrip (s : String) : String :=
  ⟨((s.data.dropWhile Char.isWhitespace).reverse.dropWhile Char.isWhitespace).reverse⟩

/-- Names of the failing checks, in check order: models the Python
comprehension that keeps k for each pair (k, v) of checks with v false. -/
def failedNames (checks : List (String × Bool)) : List String :=
  (checks.filter (fun c => !c.2)).map Prod.fst

/-- Reason string construction shared by both gates: the all-passed message
when passed, otherwise the comma-joined list of failing check names. -/
def gateReason (okMsg : String) (passed : Bool) (checks : List (String × Bool)) : String :=
  if passed then okMsg
  else "Failed checks: " ++ String.intercalate ", " (failedNames checks)

/-- validate_extraction from content_pipeline.py. -/
def validate_extraction (extracted_content : String) (_original_length : Int)
    (extracted_length : Int) : GateResult :=
  let min_length_ok : Bool := decide (100 < extracted_length)
  let has_html : Bool := hasHtmlTag extracted_content
  let has_substance : Bool := decide (pyStrip extracted_content ≠ "")
  let checks : List (String × Bool) :=
    [("min_length", min_length_ok), ("no_html_tags", !has_html),
     ("has_substance", has_substance)]
  let all_passed : Bool := min_length_ok && !has_html && has_substance
  { passed := all_passed
    reason := gateReason "All quality checks passed" all_passed checks
    checks := checks }

/-- validate_summary from content_pipeline.py. The good_compression check
exists only when original_length > 0 (the source guards the division). -/
def validate_summary (summary : String) (key_points : List String)
    (original_length : Int) (summary_length : Int) : GateResult :=
  let has_points : Bool := decide (3 ≤ key_points.length)
  let has_content : Bool := decide (50 < (pyStrip summary).length)
  if 0 < original_length then
    let good_compression : Bool := decide (5 * summary_length < 2 * original_length)
    let checks : List (String × Bool) :=
      [("has_key_points", has_points), ("good_compression", good_compression),
       ("has_content", has_content)]
    let all_passed : Bool := has_points && good_compression && has_content
    { passed := all_passed
      reason := gateReason "All summary checks passed" all_passed checks
      checks := checks }
  else
    let checks : List (String × Bool) :=
      [("has_key_points", has_points), ("has_content", has_content)]
    let all_passed : Bool := has_points && has_content
    { passed := all_passed
      reason := gateReason "All summary checks passed" all_passed checks
      checks := checks }

/-- One message of the async iterator consumed by run_stage_safe: either a
ResultMessage (with an optional structured_output payload, already validated
to the stage schema T, and a subtype string) or any other message kind. -/
inductive Msg (T : Type) where
  | result (structured_output : Option T) (subtype : String)
  | other
deriving Repr

/-- Body of the message loop of run_stage_safe: starting from the mutable
pair (result, error), fold one message. A ResultMessage with a structured
output stores the validated value; one with the max-retries subtype stores
the retry error message; everything else leaves the state unchanged. -/
def stageLoopStep (stage_name : String) (T : Type) :
    Option T × Option String → Msg T → Option T × Option String
  | acc, .result (some v) _ => (some v, acc.2)
  | acc, .result none subtype =>
      if subtype = "error_max_structured_output_retries" then
        (acc.1, some (stage_name ++ ": Could not produce valid output after retries"))
      else acc
  | acc, .other => acc

/-- run_stage_safe from content_pipeline.py. The stream of messages the
query produced is the list msgs; exc models an exception raised during the
call (caught by the try/except and rendered as stage_name plus its text).
Returns the pair (result, error) exactly as the source does. -/
def run_stage_safe (stage_name : String) {T : Type} (msgs : List (Msg T))
    (exc : Option String) : Option T × Option String :=
  match exc with
  | some e => (none, some (stage_name ++ ": " ++ e))
  | none =>
    let st := msgs.foldl (stageLoopStep stage_name T) (none, none)
    if pyTruthy st.2 then (none, st.2)
    else match st.1 with
      | some r => (some r, none)
      | none => (none, some (stage_name ++ ": No result received"))

/-- Terminal result of run_pipeline, modelling the returned dict:
success carries title, summary and key points; errorResult models the dict
with the error key (stage failure); failedAt models the dict with the
failed_at and reason keys (gate failure); crash models an uncaught
AttributeError (outcome pair with neither value nor error). -/
inductive PipeResult where
  | success (title : String) (summary : String) (key_points : List String)
  | errorResult (error : String)
  | failedAt (failed_at : String) (reason : String)
  | crash (e : String)
deriving Repr, DecidableEq

/-- Observable events of one run_pipeline call, in program order. -/
inductive PEvent where
  | extractStage
  | extractionGate
  | summarizeStage
  | summaryGate
deriving Repr, DecidableEq

/-- run_pipeline from content_pipeline.py, instrumented with the list of
stage invocations and gate evaluations it performs. The outcomes of the two
LLM stages (run_extract and run_summarize) are oracle parameters o1 and o2,
each the (result, error) pair those functions return. -/
def run_pipeline (o1 : Option ExtractResult × Option String)
    (o2 : Option SummarizeResult × Option String) : PipeResult × List PEvent :=
  let t1 : List PEvent := [.extractStage]
  if pyTruthy o1.2 then (.errorResult (o1.2.getD ""), t1)
  else
    match o1.1 with
    | none => (.crash "AttributeError", t1)
    | some step1 =>
      let step2 := validate_extraction step1.extracted_content
        step1.original_length step1.extracted_length
      let t2 := t1 ++ [.extractionGate]
      if !step2.passed then
        (.failedAt "extraction_gate" step2.reason, t2)
      else
        let t3 := t2 ++ [.summarizeStage]
        if pyTruthy o2.2 then (.errorResult (o2.2.getD ""), t3)
        else
          match o2.1 with
          | none => (.crash "AttributeError", t3)
          | some step3 =>
            let step4 := validate_summary step3.summary step3.key_points
              step3.original_length step3.summary_length
            let t4 := t3 ++ [.summaryGate]
            if step4.passed then
              (.success step1.title step3.summary step3.key_points, t4)
            else
              (.failedAt "summary_gate" step4.reason, t4)

end ContentPipeline

namespace EvalOptimize

/-- GenerateModel from eval_optimize_agent.py: thoughts and result. -/
structure GenerateModel where
  thoughts : String
  result : String
deriving Repr, DecidableEq

/-- EvalModel from eval_optimize_agent.py: the eval verdict string (PASS or
FAIL as a Literal type) and free-text feedback. -/
structure EvalModel where
  verdict : String
  feedback : String
deriving Repr, DecidableEq

/-- Context rebuilding at the end of each loop iteration: newline-join of
the header line, one dash-prefixed line per remembered attempt, and the
most recent feedback line. -/
def buildContext (memory : List String) (feedback : String) : String :=
  String.intercalate "\n"
    ("Previous attempts:" :: memory.map (fun m => "- " ++ m)
      ++ ["\nFeedback; " ++ feedback])

/-- Mutable state of the while loop in main: memory, chain_of_thought,
context, eval and result. -/
structure LoopSt where
  memory : List String
  chain_of_thought : List (String × String)
  context : String
  verdict : String
  result : String
deriving Repr, DecidableEq

/-- Initial state of main before the while loop. -/
def initState : LoopSt :=
  { memory := [], chain_of_thought := [], context := "", verdict := "FAIL"
    result := "" }

/-- One body execution of the while loop in main, at iteration index k.
The two LLM calls are oracles: gen maps (iteration, context) to the
generated model output, evl maps (iteration, content) to the evaluation.
The body generates, appends to memory and chain_of_thought, evaluates the
generated result, and rebuilds the context from all remembered attempts
and the newest feedback only. -/
def loopBody (gen : Nat → String → GenerateModel)
    (evl : Nat → String → EvalModel) (k : Nat) (st : LoopSt) : LoopSt :=
  let g := gen k st.context
  let memory := st.memory ++ [g.result]
  let chain_of_thought := st.chain_of_thought ++ [(g.thoughts, g.result)]
  let e := evl k g.result
  { memory := memory
    chain_of_thought := chain_of_thought
    context := buildContext memory e.feedback
    verdict := e.verdict
    result := g.result }

/-- State reached after the while loop body has run k times (ignoring the
loop condition; used to describe the trajectory). -/
def stateAfter (gen : Nat → String → GenerateModel)
    (evl : Nat → String → EvalModel) : Nat → LoopSt
  | 0 => initState
  | k + 1 => loopBody gen evl k (stateAfter gen evl k)

/-- The while loop of main, run with the given amount of fuel starting at
iteration k in state st: checks the condition, runs the body, repeats.
Returns none when the fuel runs out with the loop still running, otherwise
the returned pair (result, chain_of_thought). -/
def loopRun (gen : Nat → String → GenerateModel)
    (evl : Nat → String → EvalModel) :
    Nat → Nat → LoopSt → Option (String × List (String × String))
  | 0, _, _ => none
  | fuel + 1, k, st =>
      if st.verdict == "FAIL" then
        loopRun gen evl fuel (k + 1) (loopBody gen evl k st)
      else
        some (st.result, st.chain_of_thought)

/-- main from eval_optimize_agent.py (its loop structure; the prompts and
the task string live inside the oracles). -/
def mainLoop (gen : Nat → String → GenerateModel)
    (evl : Nat → String → EvalModel) (fuel : Nat) :
    Option (String × List (String × String)) :=
  loopRun gen evl fuel 0 initState

/-- Result generated at iteration k: the generate call receives the context
the loop holds on entering iteration k. -/
def genResultAt (gen : Nat → String → GenerateModel)
    (evl : Nat → String → EvalModel) (k : Nat) : String :=
  (gen k (stateAfter gen evl k).context).result

/-- Feedback the evaluator produces at iteration k. -/
def feedbackAt (gen : Nat → String → GenerateModel)
    (evl : Nat → String → EvalModel) (k : Nat) : String :=
  (evl k (genResultAt gen evl k)).feedback

end EvalOptimize

namespace TaskBreakdown

open ContentPipeline (pyTruthy)

/-- WorkStreamPlan from task_breakdown.py. -/
structure WorkStreamPlan where
  goal : String
  work_streams : List String
  reasoning : String
deriving Repr, DecidableEq

/-- WORK_STREAM_TO_WORKER from task_breakdown.py, the dict mapping work
stream names to worker agent names, as an association list. -/
def WORK_STREAM_TO_WORKER : List (String × String) :=
  [("technical", "technical-worker"), ("testing", "testing-worker"),
   ("documentation", "documentation-worker"), ("operations", "operations-worker")]

/-- AVAILABLE_WORK_STREAMS from task_breakdown.py: the keys of the
registry. -/
def AVAILABLE_WORK_STREAMS : List String := WORK_STREAM_TO_WORKER.map Prod.fst

/-- run_worker from task_breakdown.py. The oracle workerResult maps a work
stream to the terminal result string of its worker query (none when the
stream produced no ResultMessage). The dict subscript
WORK_STREAM_TO_WORKER[work_stream] raises KeyError on a missing key, which
nothing in the module catches: modelled as the error case of Except. The
following falsiness guard on worker_name mirrors the source even though a
looked-up registry value is never falsy. -/
def run_worker (workerResult : String → Option String) (work_stream : String) :
    Except String (Option String) :=
  match WORK_STREAM_TO_WORKER.lookup work_stream with
  | none => .error ("KeyError: " ++ work_stream)
  | some worker_name =>
      if worker_name = "" then .ok none
      else .ok (workerResult work_stream)

/-- Observable events of one run_orchestrator call, in program order. -/
inductive TBEvent where
  | identify
  | workerCall (stream : String)
  | synthesize
deriving Repr, DecidableEq

/-- run_all_workers from task_breakdown.py: sequentially run one worker per
stream, keeping (stream, output) in the results dict only when the output
is truthy. An uncaught KeyError aborts the iteration. Also returns the
worker call events. -/
def run_all_workers (workerResult : String → Option String) :
    List String → Except String (List (String × String)) × List TBEvent
  | [] => (.ok [], [])
  | s :: rest =>
      match run_worker workerResult s with
      | .error e => (.error e, [.workerCall s])
      | .ok output =>
          match run_all_workers workerResult rest with
          | (.error e, evs) => (.error e, .workerCall s :: evs)
          | (.ok tail, evs) =>
              (.ok (if pyTruthy output then (s, output.getD "") :: tail else tail),
               .workerCall s :: evs)

/-- Terminal outcome of run_orchestrator: the success dict, the structured
failure dict with its error string, or an uncaught exception escaping the
call (crash). -/
inductive OrchOutcome where
  | success (work_streams : List String) (plan : String)
  | failure (error : String)
  | crash (e : String)
deriving Repr, DecidableEq

/-- run_orchestrator from task_breakdown.py, instrumented with its events.
Oracles: plan is the outcome of identify_work_streams, workerResult the
per-stream worker reply, synth the outcome of synthesize_plan on the
collected worker results. -/
def run_orchestrator (plan : Option WorkStreamPlan)
    (workerResult : String → Option String)
    (synth : List (String × String) → Option String) :
    OrchOutcome × List TBEvent :=
  match plan with
  | none => (.failure "Failed to identify work streams", [.identify])
  | some p =>
      match run_all_workers workerResult p.work_streams with
      | (.error e, evs) => (.crash e, .identify :: evs)
      | (.ok worker_results, evs) =>
          if worker_results.isEmpty then
            (.failure "No worker results", .identify :: evs)
          else
            match synth worker_results with
            | none => (.failure "Synthesis failed", .identify :: evs ++ [.synthesize])
            | some final_plan =>
                (.success p.work_streams final_plan, .identify :: evs ++ [.synthesize])

end TaskBreakdown

namespace OrchestratorAgent

/-- Tasks model from orchestrator_agent.py: one planned work item. -/
structure Tasks where
  task_agent : String
  description : String
deriving Repr, DecidableEq

/-- OrchestratorOutput from orchestrator_agent.py: the planning reply. -/
structure OrchestratorOutput where
  analysis : String
  tasks : List Tasks
deriving Repr, DecidableEq

/-- WorkerOutput from orchestrator_agent.py. -/
structure WorkerOutput where
  style : String
  task : String
  response : String
deriving Repr, DecidableEq

/-- Completion side of asyncio.gather: the slot table after the futures
listed in order (by index into the dispatched list) have completed, each
writing its result into its own slot. -/
def gatherSlots {α : Type} (res : Nat → α) (order : List Nat) : Nat → Option α :=
  order.foldl (fun acc i => Function.update acc i (some (res i))) (fun _ => none)

/-- asyncio.gather over the futures with results res 0 .. res (n-1), where
order is the nondeterministic completion order: gather reads the slots back
out in dispatch-index order. -/
def gather {α : Type} (n : Nat) (res : Nat → α) (order : List Nat) : List (Option α) :=
  (List.range n).map (gatherSlots res order)

/-- Return value of process from orchestrator_agent.py: the dict with the
analysis and the collected worker_results. -/
structure ProcessResult where
  analysis : String
  worker_results : List (Option WorkerOutput)
deriving Repr, DecidableEq

/-- process from orchestrator_agent.py, after the planning call: the
planning reply is the oracle resp, the reply of process_worker for a given
planned task is the oracle workerOf, and order is the completion order of
the concurrently dispatched worker futures. The worker futures are created
in the order of resp.tasks and collected with asyncio.gather. -/
def process (resp : OrchestratorOutput) (workerOf : Tasks → WorkerOutput)
    (order : List Nat) : ProcessResult :=
  let tasks := resp.tasks
  let worker_results :=
    gather tasks.length (fun i => workerOf (tasks.getD i ⟨"", ""⟩)) order
  { analysis := resp.analysis, worker_results := worker_results }

end OrchestratorAgent

/-! Concrete inputs used to instantiate the theorems below on closed runs. -/

namespace EvalOptimize

/-- Generator oracle producing a fixed candidate on every attempt. -/
def genAlways : Nat → String → GenerateModel := fun _ _ => ⟨"thinking", "candidate"⟩

/-- Evaluator oracle failing every attempt. -/
def evlAlwaysFail : Nat → String → EvalModel := fun _ _ => ⟨"FAIL", "needs work"⟩

/-- Evaluator failing the first attempt, passing later, one wording. -/
def evlFirstFailA : Nat → String → EvalModel :=
  fun i _ => if i = 0 then ⟨"FAIL", "first feedback"⟩ else ⟨"PASS", "done early"⟩

/-- Evaluator failing the first attempt, passing later, another wording on
the later (never reached at index zero) attempts. -/
def evlFirstFailB : Nat → String → EvalModel :=
  fun i _ => if i = 0 then ⟨"FAIL", "first feedback"⟩ else ⟨"PASS", "done late"⟩

end EvalOptimize

namespace ContentPipeline

/-- Specification predicate for Claim C2 over one GateResult: passed is the
conjunction of all check values, and a failing gate lists every failing
check name in its reason. -/
def gateSpec (g : GateResult) : Prop :=
  g.passed = (g.checks.all fun c => c.2) ∧
  (g.passed = false →
    g.reason = "Failed checks: " ++ String.intercalate ", " (failedNames g.checks) ∧
    ∀ c ∈ g.checks, c.2 = false → c.1 ∈ failedNames g.checks)

/-- Extract outcome whose extracted_length 50 is below the 100 threshold. -/
def extractBelowMin : ExtractResult := ⟨"short content", 200, 50, "Title"⟩

/-- Extract outcome passing the extraction gate: length field above 100,
no HTML tag, non-blank content. -/
def extractOk : ExtractResult := ⟨"clean content", 4000, 150, "Title"⟩

end ContentPipeline

namespace OrchestratorAgent

/-- Concrete planning reply with two work items. -/
def respTwo : OrchestratorOutput :=
  ⟨"two variants", [⟨"formal", "precise version"⟩, ⟨"conversational", "friendly version"⟩]⟩

/-- Concrete worker oracle echoing the planned style. -/
def workerEcho : Tasks → WorkerOutput := fun t => ⟨t.task_agent, t.description, "content"⟩

end OrchestratorAgent

namespace TaskBreakdown

/-- Concrete plan naming two registered work streams. -/
def planTwoStreams : WorkStreamPlan := ⟨"ship the feature", ["technical", "testing"], "both needed"⟩

end TaskBreakdown


/-! Helper lemmas. -/

namespace ContentPipeline

lemma mem_failedNames {c : String × Bool} {checks : List (String × Bool)}
    (hc : c ∈ checks) (hv : c.2 = false) : c.1 ∈ failedNames checks := by
  simp only [failedNames, List.mem_map, List.mem_filter]
  exact ⟨c, ⟨hc, by simp [hv]⟩, rfl⟩

lemma and3_eq_all (a b c : Bool) (x y z : String) :
    (a && b && c) = ([(x, a), (y, b), (z, c)].all fun p => p.2) := by
  cases a <;> cases b <;> cases c <;> rfl

lemma and2_eq_all (a b : Bool) (x y : String) :
    (a && b) = ([(x, a), (y, b)].all fun p => p.2) := by
  cases a <;> cases b <;> rfl

lemma gateSpec_mk (okMsg : String) (checks : List (String × Bool)) (passed : Bool)
    (hp : passed = (checks.all fun p => p.2)) :
    gateSpec ⟨passed, gateReason okMsg passed checks, checks⟩ := by
  refine ⟨hp, fun hfalse => ⟨?_, fun c hc hv => mem_failedNames hc hv⟩⟩
  have hf : passed = false := hfalse
  simp [gateReason, hf]

end ContentPipeline

open ContentPipeline in
/-- Claim C2: for every GateResult produced by validate_extraction or
validate_summary, passed holds exactly when every entry of checks is true,
and a failing gate's reason lists the name of every failing check. -/
theorem C2_gate_passed_iff_all_checks (ec : String) (ol el : Int)
    (s : String) (kp : List String) (ol2 sl : Int) :
    gateSpec (validate_extraction ec ol el) ∧ gateSpec (validate_summary s kp ol2 sl) := by
  constructor
  · exact gateSpec_mk "All quality checks passed" _ _
      (and3_eq_all (decide (100 < el)) (!hasHtmlTag ec) (decide (pyStrip ec ≠ ""))
        "min_length" "no_html_tags" "has_substance")
  · unfold validate_summary
    split
    · exact gateSpec_mk "All summary checks passed" _ _
        (and3_eq_all _ _ _ "has_key_points" "good_compression" "has_content")
    · exact gateSpec_mk "All summary checks passed" _ _
        (and2_eq_all _ _ "has_key_points" "has_content")

open ContentPipeline in
/-- Witness for Claim C2: the empty extraction fails and its reason lists
exactly the failing check names. -/
theorem C2_gate_witness :
    (validate_extraction "" 0 0).passed = false ∧
    (validate_extraction "" 0 0).reason
      = "Failed checks: "
        ++ String.intercalate ", " (failedNames (validate_extraction "" 0 0).checks) :=
  ⟨by decide, ((C2_gate_passed_iff_all_checks "" 0 0 "" [] 0 0).1.2 (by decide)).1⟩

open ContentPipeline in
/-- Claim C10: with original_length zero the summary gate omits the
good_compression check entirely, its verdict depends only on has_key_points
and has_content, and a summary longer than the (zero length) original can
still pass. -/
theorem C10_summary_gate_zero_original (s : String) (kp : List String) (sl : Int) :
    (validate_summary s kp 0 sl).checks.map Prod.fst = ["has_key_points", "has_content"] ∧
    "good_compression" ∉ (validate_summary s kp 0 sl).checks.map Prod.fst ∧
    (validate_summary s kp 0 sl).passed
      = (decide (3 ≤ kp.length) && decide (50 < (pyStrip s).length)) ∧
    ∃ s2 kp2 sl2, 0 < sl2 ∧ (validate_summary s2 kp2 0 sl2).passed = true := by
  refine ⟨by simp [validate_summary], by simp [validate_summary], by simp [validate_summary], ?_⟩
  exact ⟨"a very long summary string that clearly has far more than fifty characters in it",
    ["one", "two", "three"], 80, by decide, by decide⟩

namespace ContentPipeline

lemma append_ne_empty_of_right (a b : String) (hb : b.length ≠ 0) : a ++ b ≠ "" := by
  intro h
  have hl := congrArg String.length h
  simp only [String.length_append] at hl
  have h0 : ("" : String).length = 0 := rfl
  omega

lemma mid_append_ne_empty (a m b : String) (hm : m.length ≠ 0) : (a ++ m) ++ b ≠ "" := by
  intro h
  have hl := congrArg String.length h
  simp only [String.length_append] at hl
  have h0 : ("" : String).length = 0 := rfl
  omega

lemma stageFold_value (name : String) {T : Type} :
    ∀ (msgs : List (Msg T)) (acc : Option T × Option String) (v : T),
      (msgs.foldl (stageLoopStep name T) acc).1 = some v →
      acc.1 = some v ∨ ∃ sub, Msg.result (some v) sub ∈ msgs := by
  intro msgs
  induction msgs with
  | nil => exact fun acc v h => .inl h
  | cons m rest ih =>
    intro acc v h
    rw [List.foldl_cons] at h
    match m with
    | .result (some v2) sub =>
      rcases ih _ v h with h1 | ⟨s2, hs⟩
      · have hv : v2 = v := Option.some.inj h1
        exact .inr ⟨sub, by rw [hv] at *; exact List.mem_cons_self _ _⟩
      · exact .inr ⟨s2, List.mem_cons_of_mem _ hs⟩
    | .result none sub =>
      by_cases hc : sub = "error_max_structured_output_retries"
      · rcases ih _ v (by simpa [stageLoopStep, hc] using h) with h1 | ⟨s2, hs⟩
        · exact .inl h1
        · exact .inr ⟨s2, List.mem_cons_of_mem _ hs⟩
      · rcases ih _ v (by simpa [stageLoopStep, hc] using h) with h1 | ⟨s2, hs⟩
        · exact .inl h1
        · exact .inr ⟨s2, List.mem_cons_of_mem _ hs⟩
    | .other =>
      rcases ih _ v (by simpa [stageLoopStep] using h) with h1 | ⟨s2, hs⟩
      · exact .inl h1
      · exact .inr ⟨s2, List.mem_cons_of_mem _ hs⟩

end ContentPipeline

open ContentPipeline in
/-- Claim C9: every run_stage_safe invocation returns exactly one of value
and error: on success the value is a validated structured output from the
message stream and the error is absent; on any failure, including an
exception during the call, the value is absent and the error message is
non-empty. -/
theorem C9_stage_outcome_exclusive (name : String) {T : Type} (msgs : List (Msg T))
    (exc : Option String) :
    ((run_stage_safe name msgs exc).1.isSome ↔ (run_stage_safe name msgs exc).2 = none) ∧
    (∀ e, (run_stage_safe name msgs exc).2 = some e → e ≠ "") ∧
    (∀ v, (run_stage_safe name msgs exc).1 = some v →
      ∃ sub, Msg.result (some v) sub ∈ msgs) := by
  match exc with
  | some e =>
    refine ⟨by simp [run_stage_safe], ?_, by simp [run_stage_safe]⟩
    intro e2 he
    simp only [run_stage_safe] at he
    rw [← Option.some.inj he]
    exact mid_append_ne_empty name ": " e (by decide)
  | none =>
    rcases hst : msgs.foldl (stageLoopStep name T) (none, none) with ⟨r, er⟩
    have hrs : run_stage_safe name msgs none
        = if pyTruthy er then (none, er)
          else match r with
            | some v => (some v, none)
            | none => (none, some (name ++ ": No result received")) := by
      simp only [run_stage_safe, hst]
    by_cases ht : pyTruthy er = true
    · rcases er with _ | e
      · simp [pyTruthy] at ht
      · rw [hrs, if_pos ht]
        refine ⟨by simp, ?_, by simp⟩
        intro e2 he
        rw [← Option.some.inj he]
        simpa [pyTruthy] using ht
    · rw [hrs, if_neg (by simpa using ht)]
      rcases r with _ | v
      · refine ⟨by simp, ?_, by simp⟩
        intro e2 he
        rw [← Option.some.inj he]
        exact append_ne_empty_of_right name ": No result received" (by decide)
      · refine ⟨by simp, by simp, ?_⟩
        intro v2 hv
        have hv2 : v = v2 := Option.some.inj hv
        subst hv2
        rcases stageFold_value name msgs (none, none) v (by rw [hst]) with h1 | h2
        · exact absurd h1 (by simp)
        · exact h2

open ContentPipeline in
/-- Witness for Claim C9 at a concrete stream: a run with no result message
yields no value and a non-empty error. -/
theorem C9_stage_outcome_witness :
    ((run_stage_safe "EXTRACT" ([Msg.other] : List (Msg Nat)) none).1.isSome
      ↔ (run_stage_safe "EXTRACT" ([Msg.other] : List (Msg Nat)) none).2 = none) ∧
    "EXTRACT: No result received" ≠ "" :=
  ⟨(C9_stage_outcome_exclusive "EXTRACT" [Msg.other] none).1,
   (C9_stage_outcome_exclusive "EXTRACT" ([Msg.other] : List (Msg Nat)) none).2.1
     "EXTRACT: No result received" (by decide)⟩

open ContentPipeline in
/-- Claim C3: whenever a gate returns passed false, the pipeline stops at
once with a failed-at-gate result carrying that gate's reason, and no later
stage runner is invoked: a failing extraction gate prevents the summarize
stage, and a failing summary gate ends the run with its reason. -/
theorem C3_pipeline_halts_at_failed_gate
    (o1 : Option ExtractResult × Option String)
    (o2 : Option SummarizeResult × Option String) :
    (∀ r : ExtractResult, o1 = (some r, none) →
      (validate_extraction r.extracted_content r.original_length r.extracted_length).passed
          = false →
      run_pipeline o1 o2
          = (.failedAt "extraction_gate"
              (validate_extraction r.extracted_content r.original_length
                r.extracted_length).reason,
             [.extractStage, .extractionGate]) ∧
      PEvent.summarizeStage ∉ (run_pipeline o1 o2).2) ∧
    (∀ (r : ExtractResult) (s3 : SummarizeResult), o1 = (some r, none) →
      (validate_extraction r.extracted_content r.original_length r.extracted_length).passed
          = true →
      o2 = (some s3, none) →
      (validate_summary s3.summary s3.key_points s3.original_length
          s3.summary_length).passed = false →
      run_pipeline o1 o2
          = (.failedAt "summary_gate"
              (validate_summary s3.summary s3.key_points s3.original_length
                s3.summary_length).reason,
             [.extractStage, .extractionGate, .summarizeStage, .summaryGate])) := by
  constructor
  · intro r h1 hgate
    subst h1
    have hrp : run_pipeline (some r, none) o2
        = (.failedAt "extraction_gate"
            (validate_extraction r.extracted_content r.original_length
              r.extracted_length).reason,
           [.extractStage, .extractionGate]) := by
      simp [run_pipeline, pyTruthy, hgate]
    exact ⟨hrp, by rw [hrp]; simp⟩
  · intro r s3 h1 hgate h2 hsgate
    subst h1; subst h2
    simp [run_pipeline, pyTruthy, hgate, hsgate]

open ContentPipeline in
/-- Witness for Claim C3: a below-threshold extraction halts the pipeline
at the extraction gate and the summarize stage never runs. -/
theorem C3_pipeline_halts_witness :
    run_pipeline (some extractBelowMin, none) (none, none)
        = (.failedAt "extraction_gate" "Failed checks: min_length",
           [.extractStage, .extractionGate]) ∧
    PEvent.summarizeStage ∉ (run_pipeline (some extractBelowMin, none) (none, none)).2 := by
  have h := (C3_pipeline_halts_at_failed_gate (some extractBelowMin, none) (none, none)).1
    extractBelowMin rfl (by decide)
  exact ⟨h.1.trans (by decide), h.2⟩

open ContentPipeline in
/-- Claim C4: when a stage runner reports an error, the pipeline returns the
failed-at-stage error result immediately and the gate of that stage is never
evaluated: an extract error skips the extraction gate, and a summarize error
(after a passing extraction gate) skips the summary gate. -/
theorem C4_stage_error_skips_gate
    (o1 : Option ExtractResult × Option String)
    (o2 : Option SummarizeResult × Option String) :
    (∀ e, o1.2 = some e → e ≠ "" →
      run_pipeline o1 o2 = (.errorResult e, [.extractStage]) ∧
      PEvent.extractionGate ∉ (run_pipeline o1 o2).2) ∧
    (∀ (r : ExtractResult) (e : String), o1 = (some r, none) →
      (validate_extraction r.extracted_content r.original_length r.extracted_length).passed
          = true →
      o2.2 = some e → e ≠ "" →
      run_pipeline o1 o2
          = (.errorResult e, [.extractStage, .extractionGate, .summarizeStage]) ∧
      PEvent.summaryGate ∉ (run_pipeline o1 o2).2) := by
  constructor
  · intro e he hne
    have hrp : run_pipeline o1 o2 = (.errorResult e, [.extractStage]) := by
      simp [run_pipeline, pyTruthy, he, hne]
    exact ⟨hrp, by rw [hrp]; simp⟩
  · intro r e h1 hgate he hne
    subst h1
    have hrp : run_pipeline (some r, none) o2
        = (.errorResult e, [.extractStage, .extractionGate, .summarizeStage]) := by
      simp [run_pipeline, pyTruthy, hgate, he, hne]
    exact ⟨hrp, by rw [hrp]; simp⟩

open ContentPipeline in
/-- Witness for Claim C4: both stage-error scenarios at concrete inputs.
An extract error returns it directly with no gate evaluated, and after a
passing extraction a summarize error does the same. -/
theorem C4_stage_error_witness :
    run_pipeline ((none : Option ExtractResult), some "EXTRACT: boom") (none, none)
        = (.errorResult "EXTRACT: boom", [.extractStage]) ∧
    run_pipeline (some extractOk, none)
        ((none : Option SummarizeResult), some "SUMMARIZE: boom")
        = (.errorResult "SUMMARIZE: boom",
           [.extractStage, .extractionGate, .summarizeStage]) := by
  constructor
  · exact ((C4_stage_error_skips_gate (none, some "EXTRACT: boom") (none, none)).1
      "EXTRACT: boom" rfl (by decide)).1
  · exact ((C4_stage_error_skips_gate (some extractOk, none)
      (none, some "SUMMARIZE: boom")).2 extractOk "SUMMARIZE: boom" rfl (by decide)
      rfl (by decide)).1

namespace EvalOptimize

lemma loopRun_always_fail (gen : Nat → String → GenerateModel) :
    ∀ (fuel k : Nat) (st : LoopSt), st.verdict = "FAIL" →
      loopRun gen evlAlwaysFail fuel k st = none
  | 0, _, _, _ => rfl
  | fuel + 1, k, st, h => by
      rw [loopRun, if_pos (by simp [h])]
      exact loopRun_always_fail gen fuel (k + 1) _ rfl

lemma stateAfter_history_length (gen : Nat → String → GenerateModel)
    (evl : Nat → String → EvalModel) :
    ∀ k, (stateAfter gen evl k).chain_of_thought.length = k
  | 0 => rfl
  | k + 1 => by
      simp [stateAfter, loopBody, stateAfter_history_length gen evl k]

lemma stateAfter_congr (gen : Nat → String → GenerateModel)
    (evl evl2 : Nat → String → EvalModel) :
    ∀ k, (∀ i < k, evl i = evl2 i) →
      stateAfter gen evl k = stateAfter gen evl2 k
  | 0, _ => rfl
  | k + 1, h => by
      have ih := stateAfter_congr gen evl evl2 k fun i hi => h i (Nat.lt_succ_of_lt hi)
      show loopBody gen evl k _ = loopBody gen evl2 k _
      simp only [loopBody, ih, h k (Nat.lt_succ_self k)]

lemma stateAfter_memory (gen : Nat → String → GenerateModel)
    (evl : Nat → String → EvalModel) :
    ∀ j, (stateAfter gen evl j).memory = (List.range j).map (genResultAt gen evl)
  | 0 => rfl
  | j + 1 => by
      rw [List.range_succ]
      simp [stateAfter, loopBody, stateAfter_memory gen evl j, genResultAt]

end EvalOptimize

open EvalOptimize in
/-- Claim C1 statement check against the code: the loop of main has no
iteration bound at all. With an evaluator that fails every attempt the loop
never terminates, for any fuel, instead of stopping after a configured
maximum of three iterations with an Exhausted status; the history keeps
growing one entry per iteration and reaches four entries after four
iterations, exceeding the claimed three-entry bound. -/
theorem C1_loop_lacks_iteration_bound :
    (∀ fuel, mainLoop genAlways evlAlwaysFail fuel = none) ∧
    (stateAfter genAlways evlAlwaysFail 4).chain_of_thought.length = 4 ∧
    (∀ gen evl k, (stateAfter gen evl k).chain_of_thought.length = k) :=
  ⟨fun fuel => loopRun_always_fail genAlways fuel 0 initState rfl,
   stateAfter_history_length genAlways evlAlwaysFail 4,
   fun gen evl k => stateAfter_history_length gen evl k⟩

open EvalOptimize in
/-- Claim C7: after a failing iteration k the context handed to generation
k+1 is rebuilt as all previous generated attempts followed by only the most
recent feedback; the memory is exactly the ordered list of all previous
generated results; and the state entering iteration k does not depend on
any evaluator verdict or feedback from iterations at or past k, so feedback
from iteration k is invisible to every generation up to k. -/
theorem C7_feedback_visibility (gen : Nat → String → GenerateModel)
    (evl evl2 : Nat → String → EvalModel) (k : Nat)
    (h : ∀ i < k, evl i = evl2 i) :
    stateAfter gen evl k = stateAfter gen evl2 k ∧
    (stateAfter gen evl (k + 1)).context
      = buildContext ((stateAfter gen evl (k + 1)).memory) (feedbackAt gen evl k) ∧
    (stateAfter gen evl (k + 1)).memory
      = (stateAfter gen evl k).memory ++ [genResultAt gen evl k] ∧
    (∀ j, (stateAfter gen evl j).memory = (List.range j).map (genResultAt gen evl)) :=
  ⟨stateAfter_congr gen evl evl2 k h, rfl, rfl,
   fun j => stateAfter_memory gen evl j⟩

open EvalOptimize in
/-- Witness for Claim C7: two evaluators that agree on iteration zero but
differ afterwards produce identical loop states after one iteration. -/
theorem C7_feedback_visibility_witness :
    stateAfter genAlways evlFirstFailA 1 = stateAfter genAlways evlFirstFailB 1 :=
  (C7_feedback_visibility genAlways evlFirstFailA evlFirstFailB 1
    (fun i hi => by
      have h0 : i = 0 := Nat.lt_one_iff.mp hi
      subst h0
      rfl)).1

namespace OrchestratorAgent

lemma gatherSlots_apply {α : Type} (res : Nat → α) :
    ∀ (order : List Nat) (acc : Nat → Option α) (i : Nat),
      order.foldl (fun a j => Function.update a j (some (res j))) acc i
        = if i ∈ order then some (res i) else acc i
  | [], _, _ => by simp
  | j0 :: rest, acc, i => by
      rw [List.foldl_cons, gatherSlots_apply res rest _ i]
      by_cases hmem : i ∈ rest
      · simp [hmem]
      · by_cases hij : i = j0
        · subst hij
          simp [hmem, Function.update_same]
        · simp [hmem, hij, Function.update_noteq hij]

lemma gatherSlots_eq {α : Type} (res : Nat → α) (order : List Nat) (i : Nat) :
    gatherSlots res order i = if i ∈ order then some (res i) else none :=
  gatherSlots_apply res order _ i

lemma gather_of_perm {α : Type} (n : Nat) (res : Nat → α) (order : List Nat)
    (h : order.Perm (List.range n)) :
    gather n res order = (List.range n).map fun i => some (res i) := by
  unfold gather
  apply List.map_congr_left
  intro i hi
  rw [gatherSlots_eq res order i, if_pos (h.mem_iff.mpr hi)]

lemma range_map_getD {α β : Type} (f : α → β) (d : α) :
    ∀ l : List α,
      ((List.range l.length).map fun i => f (l.getD i d)) = l.map f
  | [] => by simp
  | a :: t => by
      rw [List.length_cons, List.range_succ_eq_map]
      simp only [List.map_cons, List.map_map]
      refine congrArg (f a :: ·) ?_
      have : ((fun i => f ((a :: t).getD i d)) ∘ Nat.succ)
          = fun i => f (t.getD i d) := by
        funext i
        rfl
      rw [this, range_map_getD f d t]

end OrchestratorAgent

namespace TaskBreakdown

lemma run_worker_registered (w : String → Option String) (s : String)
    (hs : s ∈ AVAILABLE_WORK_STREAMS) : run_worker w s = .ok (w s) := by
  fin_cases hs <;> rfl

lemma run_all_workers_all_ok (w : String → Option String) :
    ∀ streams : List String,
      (∀ s ∈ streams, s ∈ AVAILABLE_WORK_STREAMS) →
      (∀ s ∈ streams, ContentPipeline.pyTruthy (w s) = true) →
      run_all_workers w streams
        = (.ok (streams.map fun s => (s, (w s).getD "")),
           streams.map TBEvent.workerCall)
  | [], _, _ => rfl
  | s :: rest, hreg, htr => by
      have hw := run_worker_registered w s (hreg s (List.mem_cons_self s rest))
      have ih := run_all_workers_all_ok w rest
        (fun x hx => hreg x (List.mem_cons_of_mem s hx))
        (fun x hx => htr x (List.mem_cons_of_mem s hx))
      simp only [run_all_workers, hw, ih, htr s (List.mem_cons_self s rest),
        if_pos, List.map_cons]

lemma run_all_workers_all_none (w : String → Option String) :
    ∀ streams : List String,
      (∀ s ∈ streams, s ∈ AVAILABLE_WORK_STREAMS) →
      (∀ s ∈ streams, w s = none) →
      run_all_workers w streams = (.ok [], streams.map TBEvent.workerCall)
  | [], _, _ => rfl
  | s :: rest, hreg, hnone => by
      have hw := run_worker_registered w s (hreg s (List.mem_cons_self s rest))
      have ih := run_all_workers_all_none w rest
        (fun x hx => hreg x (List.mem_cons_of_mem s hx))
        (fun x hx => hnone x (List.mem_cons_of_mem s hx))
      simp only [run_all_workers, hw, ih, hnone s (List.mem_cons_self s rest),
        ContentPipeline.pyTruthy, List.map_cons]
      rfl

end TaskBreakdown

open OrchestratorAgent TaskBreakdown in
/-- Claim C5: collected worker results reach synthesis in the order the
planning stage declared the work items, for every completion order of the
concurrently dispatched workers: any two completion permutations give the
same process result, equal to the per-task outputs in declared task order;
and in the task breakdown agent the collected results handed to
synthesize_plan follow the declared work stream order. -/
theorem C5_synthesis_order_independent (resp : OrchestratorOutput)
    (workerOf : Tasks → WorkerOutput) (order order2 : List Nat)
    (h : order.Perm (List.range resp.tasks.length))
    (h2 : order2.Perm (List.range resp.tasks.length)) :
    process resp workerOf order = process resp workerOf order2 ∧
    (process resp workerOf order).worker_results
      = resp.tasks.map (fun t => some (workerOf t)) ∧
    (∀ (w : String → Option String) (streams : List String),
      (∀ s ∈ streams, s ∈ AVAILABLE_WORK_STREAMS) →
      (∀ s ∈ streams, ContentPipeline.pyTruthy (w s) = true) →
      (run_all_workers w streams).1
        = .ok (streams.map fun s => (s, (w s).getD ""))) := by
  have key : ∀ ord : List Nat, ord.Perm (List.range resp.tasks.length) →
      (process resp workerOf ord).worker_results
        = resp.tasks.map fun t => some (workerOf t) := by
    intro ord hord
    show gather resp.tasks.length
        (fun i => workerOf (resp.tasks.getD i ⟨"", ""⟩)) ord
      = resp.tasks.map fun t => some (workerOf t)
    rw [gather_of_perm _ _ _ hord]
    exact range_map_getD (fun t => some (workerOf t)) ⟨"", ""⟩ resp.tasks
  refine ⟨?_, key order h, ?_⟩
  · have e1 := key order h
    have e2 := key order2 h2
    show (⟨resp.analysis, (process resp workerOf order).worker_results⟩ : ProcessResult)
        = ⟨resp.analysis, (process resp workerOf order2).worker_results⟩
    rw [e1, e2]
  · intro w streams hreg htr
    rw [run_all_workers_all_ok w streams hreg htr]

open OrchestratorAgent TaskBreakdown in
/-- Witness for Claim C5: with two planned tasks, the completion orders
second-first and first-second collect identical results. -/
theorem C5_synthesis_order_witness :
    process respTwo workerEcho [1, 0] = process respTwo workerEcho [0, 1] :=
  (C5_synthesis_order_independent respTwo workerEcho [1, 0] [0, 1]
    (by decide) (by decide)).1

open TaskBreakdown in
/-- Claim C6 statement check against the code: a work item naming a
capability absent from WORK_STREAM_TO_WORKER is not rejected with a
structured UnknownCapability error. The dict subscript raises a KeyError
before the dead falsiness guard can run, and nothing catches it, so the
whole orchestrator run aborts with the exception instead of reporting a
structured outcome. -/
theorem C6_unknown_capability_raises (w : String → Option String)
    (synth : List (String × String) → Option String) (g r : String) :
    run_worker w "design" = .error "KeyError: design" ∧
    (run_orchestrator (some ⟨g, ["design"], r⟩) w synth).1 = .crash "KeyError: design" :=
  ⟨rfl, rfl⟩

open TaskBreakdown in
/-- Claim C8: when every dispatched work item fails to produce a result the
collected results dict is empty, run_orchestrator returns the structured
no-worker-results failure, and the synthesis stage is never invoked. -/
theorem C8_all_workers_failed_skips_synthesis (p : WorkStreamPlan)
    (w : String → Option String) (synth : List (String × String) → Option String)
    (hreg : ∀ s ∈ p.work_streams, s ∈ AVAILABLE_WORK_STREAMS)
    (hnone : ∀ s ∈ p.work_streams, w s = none) :
    (run_orchestrator (some p) w synth).1 = .failure "No worker results" ∧
    TBEvent.synthesize ∉ (run_orchestrator (some p) w synth).2 := by
  have hw := run_all_workers_all_none w p.work_streams hreg hnone
  have hro : run_orchestrator (some p) w synth
      = (.failure "No worker results",
         .identify :: p.work_streams.map TBEvent.workerCall) := by
    simp [run_orchestrator, hw]
  rw [hro]
  refine ⟨rfl, ?_⟩
  simp [List.mem_cons, List.mem_map]

open TaskBreakdown in
/-- Witness for Claim C8: a plan with two registered streams whose workers
all return nothing ends in the no-worker-results failure without a
synthesize event. -/
theorem C8_all_workers_failed_witness :
    (run_orchestrator (some planTwoStreams) (fun _ => none) (fun _ => none)).1
        = .failure "No worker results" ∧
    TBEvent.synthesize
      ∉ (run_orchestrator (some planTwoStreams) (fun _ => none) (fun _ => none)).2 :=
  C8_all_workers_failed_skips_synthesis planTwoStreams (fun _ => none) (fun _ => none)
    (by decide) (fun s _ => rfl)
